import Mathlib

/-!
Verification of the leader-routing resolution subsystem
(`src/leader_routing`): epoch clock, slot-to-leader index, geo resolver,
region catalog, the three orchestration modes, and the verify-mode
consistency comparison. Definitions are a shallow embedding of the Rust
source; the RPC client is represented by its call results so that the
orchestrator logic is a pure function of them.
-/

namespace LeaderRouting

/-- A validator identity: a sequence of bytes (each < 256); well-formed
identities have length 32, matching the Rust type for pubkeys. -/
abbrev Pubkey := List Nat

/-- Epoch metadata, from the `EpochMetadata` struct in `build.rs`
(all four fields are u64 in the source). -/
structure EpochMetadata where
  start_time_ms : Nat
  slot_duration_ms : Nat
  start_slot : Nat
  end_slot : Nat
  deriving DecidableEq, Repr

/-- The stub epoch metadata written by `create_stub_files` in `build.rs`
(start_time_ms 0, slot_duration_ms 400, start_slot 0, end_slot 432000). -/
def stub_metadata : EpochMetadata :=
  { start_time_ms := 0, slot_duration_ms := 400, start_slot := 0, end_slot := 432000 }

/-- Modelled from the spec: `src/epoch.rs` (the Epoch Clock) is not present
under `src/`; only its callers are. Spec section 4.2:
`current_slot = start_slot + (now_ms - start_time_ms) / slot_duration_ms`,
integer division truncating. Pre-epoch inputs must not underflow; the
saturate-to-zero policy is chosen here, which Nat subtraction realises. -/
def current_slot (meta : EpochMetadata) (now_ms : Nat) : Nat :=
  meta.start_slot + (now_ms - meta.start_time_ms) / meta.slot_duration_ms

/-- Modelled from the spec: `src/epoch.rs` is not present under `src/`.
Spec section 4.2: `slot_offset(slot) = slot - start_slot` for
`slot >= start_slot`, saturating to zero below (same policy as above). -/
def slot_offset (meta : EpochMetadata) (slot : Nat) : Nat :=
  slot - meta.start_slot

/-- Hex digit character for a value < 16, lower case, as produced by
`hex::encode`. -/
def hexDigitChar (n : Nat) : Char :=
  if n < 10 then Char.ofNat (48 + n) else Char.ofNat (87 + n)

/-- The two hex characters of one byte. -/
def hexByte (b : Nat) : List Char :=
  [hexDigitChar (b / 16), hexDigitChar (b % 16)]

/-- `hex::encode` on a byte sequence: each byte becomes two lower-case hex
characters, in order. -/
def hexEncode (bs : List Nat) : String :=
  String.mk ((bs.map hexByte).flatten)

/-- The bitcoin-style base58 alphabet used by the `bs58` crate (see
`build.rs`, which decodes snapshot pubkeys with `bs58::decode`). -/
def BASE58_ALPHABET : List Char :=
  "123456789ABCDEFGHJKLMNPQRSTUVWXYZabcdefghijkmnopqrstuvwxyz".toList

/-- Big-endian byte sequence read as one natural number. -/
def bytesToNat (bs : List Nat) : Nat :=
  bs.foldl (fun acc b => acc * 256 + b) 0

/-- Number of leading zero bytes, each of which contributes one leading
base58 digit for zero. -/
def leadingZeros : List Nat → Nat
  | [] => 0
  | b :: rest => if b = 0 then leadingZeros rest + 1 else 0

/-- Base-58 digit values of `n`, least significant first; the first
argument is fuel, always called with enough of it. -/
def natToBase58Rev : Nat → Nat → List Nat
  | 0, _ => []
  | fuel + 1, n => if n = 0 then [] else n % 58 :: natToBase58Rev fuel (n / 58)

/-- Base-58 digit characters of `n`, most significant first. -/
def base58Digits (n : Nat) : List Char :=
  (natToBase58Rev (n + 1) n).reverse.map (fun d => BASE58_ALPHABET.getD d (Char.ofNat 49))

/-- Modelled from the repository's own tests: `Pubkey::to_string()` on the
RPC client's pubkey type renders base58 (`tests/integration_test.rs`:
"RPC returns base58, we have hex - compare by converting"; the zela_std
pubkey type itself is an external dependency). Standard base58check-free
encoding: one character `1` per leading zero byte, then the big-endian
base-58 digits of the remaining value. -/
def pubkeyToString (pk : Pubkey) : String :=
  String.mk (List.replicate (leadingZeros pk) (Char.ofNat 49) ++ base58Digits (bytesToNat pk))

/-- The four Zela server regions, from `region.rs`. -/
inductive Region where
  | Frankfurt
  | Dubai
  | NewYork
  | Tokyo
  deriving DecidableEq, Repr

/-- Default fallback region for unknown validator locations
(`Region::DEFAULT` in `region.rs`). -/
def Region.DEFAULT : Region := Region.Frankfurt

/-- Human-readable geographic label (`Region::geo_label`). -/
def Region.geo_label : Region → String
  | Region.Frankfurt => "Europe/Frankfurt"
  | Region.Dubai => "Middle East/Dubai"
  | Region.NewYork => "North America/New York"
  | Region.Tokyo => "Asia/Tokyo"

/-- The `Display` implementation for `Region` in `region.rs`. -/
def Region.toString : Region → String
  | Region.Frankfurt => "Frankfurt"
  | Region.Dubai => "Dubai"
  | Region.NewYork => "NewYork"
  | Region.Tokyo => "Tokyo"

/-- `From<u8> for Region` in `region.rs`: 0, 1, 2, 3 name the four
regions, everything else falls back to the default. The u8 argument is a
Nat below 256 in this embedding. -/
def Region.fromCode (value : Nat) : Region :=
  match value with
  | 0 => Region.Frankfurt
  | 1 => Region.Dubai
  | 2 => Region.NewYork
  | 3 => Region.Tokyo
  | _ => Region.DEFAULT

/-- `region_to_u8` in `build.rs`: region name to storage code. -/
def region_to_u8 (region : String) : Nat :=
  if region = "Frankfurt" then 0
  else if region = "Dubai" then 1
  else if region = "NewYork" then 2
  else if region = "Tokyo" then 3
  else 4

/-- `IS_STUB` in `geo.rs`: constant true while the geo module is a stub. -/
def IS_STUB : Bool := true

/-- The backing validator-to-region table of the geo resolver. `geo.rs`
consults no table at all (it is a stub), and the map emitted by
`create_stub_files` in `build.rs` (`VALIDATOR_TO_REGION`) is empty; the
backing table of the shipped module is therefore the empty table. -/
def VALIDATOR_TO_REGION : List (Pubkey × Nat) := []

/-- `get_region` in `geo.rs`: stub that returns Frankfurt for every
pubkey. -/
def get_region (_pubkey : Pubkey) : Region :=
  Region.Frankfurt

/-- `get_geo_label` in `geo.rs`: label of the resolved region. -/
def get_geo_label (pubkey : Pubkey) : String :=
  (get_region pubkey).geo_label

/-- `get_leader` in `schedule.rs`: converts the absolute slot to an
epoch-relative offset and performs the table lookup. The PHF map
`SLOT_TO_VALIDATOR` is represented as an association list with the same
key/value pairs. -/
def get_leader (meta : EpochMetadata) (table : List (Nat × Pubkey)) (slot : Nat) :
    Option Pubkey :=
  (table.find? (fun e => e.1 == slot_offset meta slot)).map (fun e => e.2)

/-- `get_leader_hex` in `schedule.rs`. -/
def get_leader_hex (meta : EpochMetadata) (table : List (Nat × Pubkey)) (slot : Nat) :
    Option String :=
  (get_leader meta table slot).map hexEncode

/-- Execution mode (`Mode` in `lib.rs`). -/
inductive Mode where
  | Precomputed
  | Rpc
  | Verify
  deriving DecidableEq, Repr

/-- The error envelope (`RpcError` in zela_std, as constructed in
`lib.rs`: an integer code and a message; `data` is always `None` there and
is omitted). -/
structure RpcErr where
  code : Nat
  message : String
  deriving DecidableEq, Repr

/-- Debug information for verify mode (`DebugInfo` in `lib.rs`). -/
structure DebugInfo where
  precomputed_slot : Nat
  rpc_slot : Nat
  slots_match : Bool
  precomputed_leader : Option String
  rpc_leader : Option String
  leaders_match : Bool
  deriving DecidableEq, Repr

/-- Output data (`Output` in `lib.rs`). -/
structure Output where
  slot : Nat
  leader : String
  leader_geo : String
  closest_region : String
  debug : Option DebugInfo
  deriving DecidableEq, Repr

/-- The RPC client, represented by the results its two calls would
return in this request: `get_slot` and `get_slot_leaders(slot, n)`
(both fallible). -/
structure RpcEnv where
  get_slot : Except String Nat
  get_slot_leaders : Nat → Nat → Except String (List Pubkey)

/-- `run_precomputed` in `lib.rs`. The resolved current slot
(`epoch::current_slot()`), the epoch metadata and the schedule table are
passed as arguments; the body is the source's logic: the epoch-expiry
guard first, then the leader lookup, then geo resolution. -/
def run_precomputed (slot : Nat) (meta : EpochMetadata) (table : List (Nat × Pubkey)) :
    Except RpcErr Output :=
  if slot > meta.end_slot then
    Except.error
      { code := 410
        message := "Epoch ended. Redeploy required. computed_slot=" ++ ToString.toString slot
          ++ ", end_slot=" ++ ToString.toString meta.end_slot }
  else
    match get_leader meta table slot with
    | none =>
        Except.error
          { code := 404, message := "No leader found for slot " ++ ToString.toString slot }
    | some leader_pubkey =>
        let leader_hex := hexEncode leader_pubkey
        let region := get_region leader_pubkey
        Except.ok
          { slot := slot
            leader := leader_hex
            leader_geo := region.geo_label
            closest_region := region.toString
            debug := none }

/-- `run_rpc` in `lib.rs`: live RPC only; both calls fallible with code
500 on failure, 404 when the leaders list is empty. -/
def run_rpc (env : RpcEnv) : Except RpcErr Output :=
  match env.get_slot with
  | Except.error e =>
      Except.error { code := 500, message := "RPC get_slot failed: " ++ e }
  | Except.ok slot =>
    match env.get_slot_leaders slot 1 with
    | Except.error e =>
        Except.error { code := 500, message := "RPC get_slot_leaders failed: " ++ e }
    | Except.ok leaders =>
      match leaders.head? with
      | none =>
          Except.error
            { code := 404, message := "No leader returned for slot " ++ ToString.toString slot }
      | some leader_pubkey =>
          let leader_hex := pubkeyToString leader_pubkey
          let region := get_region leader_pubkey
          Except.ok
            { slot := slot
              leader := leader_hex
              leader_geo := region.geo_label
              closest_region := region.toString
              debug := none }

/-- `run_verify` in `lib.rs`: both paths, RPC values authoritative for the
output, comparison results in the debug block. `precomputed_slot` is the
value of `epoch::current_slot()`. Note the source compares
`precomputed_leader.map(hex::encode)` against
`rpc_leader.map(|p| p.to_string())` as strings. -/
def run_verify (env : RpcEnv) (precomputed_slot : Nat) (meta : EpochMetadata)
    (table : List (Nat × Pubkey)) : Except RpcErr Output :=
  match env.get_slot with
  | Except.error e =>
      Except.error { code := 500, message := "RPC get_slot failed: " ++ e }
  | Except.ok rpc_slot =>
    let precomputed_leader := get_leader meta table precomputed_slot
    let precomputed_leader_hex := precomputed_leader.map hexEncode
    match env.get_slot_leaders rpc_slot 1 with
    | Except.error e =>
        Except.error { code := 500, message := "RPC get_slot_leaders failed: " ++ e }
    | Except.ok rpc_leaders =>
      let rpc_leader := rpc_leaders.head?
      let rpc_leader_hex := rpc_leader.map pubkeyToString
      let slots_match := precomputed_slot == rpc_slot
      let leaders_match := precomputed_leader_hex == rpc_leader_hex
      let leader_hex := rpc_leader_hex.getD "unknown"
      let leader_bytes := rpc_leader.getD (List.replicate 32 0)
      let region := get_region leader_bytes
      Except.ok
        { slot := rpc_slot
          leader := leader_hex
          leader_geo := region.geo_label
          closest_region := region.toString
          debug := some
            { precomputed_slot := precomputed_slot
              rpc_slot := rpc_slot
              slots_match := slots_match
              precomputed_leader := precomputed_leader_hex
              rpc_leader := rpc_leader_hex
              leaders_match := leaders_match } }

/-- The mode dispatch in `LeaderRouting::run` in `lib.rs`. -/
def run (mode : Mode) (env : RpcEnv) (precomputed_slot : Nat) (meta : EpochMetadata)
    (table : List (Nat × Pubkey)) : Except RpcErr Output :=
  match mode with
  | Mode.Precomputed => run_precomputed precomputed_slot meta table
  | Mode.Rpc => run_rpc env
  | Mode.Verify => run_verify env precomputed_slot meta table

/-- Accumulated result of `generate_slot_to_validator_phf` in `build.rs`:
the entries that went into the PHF builder, plus the valid/skipped
counters (the skipped counter drives the per-entry diagnostics). -/
structure BuildResult where
  entries : List (Nat × Pubkey)
  valid_entries : Nat
  skipped_entries : Nat
  deriving DecidableEq, Repr

/-- The entry loop of `generate_slot_to_validator_phf` in `build.rs`:
entries whose pubkey is not exactly 32 bytes are skipped (with a
diagnostic counted in `skipped_entries`); all others enter the map. The
function never aborts: every input list produces a result. -/
def generate_slot_to_validator_phf : List (Nat × Pubkey) → BuildResult
  | [] => { entries := [], valid_entries := 0, skipped_entries := 0 }
  | e :: rest =>
    let r := generate_slot_to_validator_phf rest
    if e.2.length = 32 then
      { entries := e :: r.entries
        valid_entries := r.valid_entries + 1
        skipped_entries := r.skipped_entries }
    else
      { entries := r.entries
        valid_entries := r.valid_entries
        skipped_entries := r.skipped_entries + 1 }

/-- The all-zero 32-byte pubkey, used as a concrete identity. -/
def zeroPk : Pubkey := List.replicate 32 0

/-- A one-entry schedule table placing the all-zero pubkey at offset 5. -/
def tableC1 : List (Nat × Pubkey) := [(5, zeroPk)]

/-- RPC results: current slot 5, leaders list holding the all-zero pubkey. -/
def envC1 : RpcEnv :=
  { get_slot := Except.ok 5, get_slot_leaders := fun _ _ => Except.ok [zeroPk] }

/-- RPC results where `get_slot` itself fails. -/
def envFail : RpcEnv :=
  { get_slot := Except.error "boom", get_slot_leaders := fun _ _ => Except.error "boom" }

/-- RPC results where `get_slot` succeeds but `get_slot_leaders` fails. -/
def envFail2 : RpcEnv :=
  { get_slot := Except.ok 7, get_slot_leaders := fun _ _ => Except.error "down" }

/-- RPC results: current slot 9, empty leaders list. -/
def envEmpty : RpcEnv :=
  { get_slot := Except.ok 9, get_slot_leaders := fun _ _ => Except.ok [] }

/-- The output `run_verify` produces under `envEmpty` with precomputed
slot 9 and an empty schedule table. -/
def outEmpty : Output :=
  { slot := 9
    leader := "unknown"
    leader_geo := "Europe/Frankfurt"
    closest_region := "Frankfurt"
    debug := some
      { precomputed_slot := 9
        rpc_slot := 9
        slots_match := true
        precomputed_leader := none
        rpc_leader := none
        leaders_match := true } }

end LeaderRouting

namespace LeaderRouting

/-- C2: the geo resolver's stub flag is true exactly when the backing
validator-to-region table is empty; in the shipped source the module is a
stub whose backing table is empty and whose flag is constant true, so both
sides of the biconditional hold. -/
theorem is_stub_iff_geo_table_empty : IS_STUB = true ↔ VALIDATOR_TO_REGION = [] := by
  simp [IS_STUB, VALIDATOR_TO_REGION]

/-- C3: in Precomputed mode, whenever the resolved current slot is
strictly greater than the epoch metadata's end slot, resolution fails with
the stale-schedule error (code 410), for every schedule table — the guard
fires before any leader lookup, so no leader is ever returned. -/
theorem run_precomputed_stale_schedule (slot : Nat) (meta : EpochMetadata)
    (table : List (Nat × Pubkey)) (h : slot > meta.end_slot) :
    run_precomputed slot meta table =
      Except.error
        { code := 410
          message := "Epoch ended. Redeploy required. computed_slot=" ++ ToString.toString slot
            ++ ", end_slot=" ++ ToString.toString meta.end_slot } := by
  simp [run_precomputed, h]

/-- Witness for C3 at slot 432001 with the stub metadata (end slot
432000) and an arbitrary table. -/
theorem run_precomputed_stale_schedule_witness :
    run_precomputed 432001 stub_metadata tableC1 =
      Except.error
        { code := 410
          message := "Epoch ended. Redeploy required. computed_slot="
            ++ ToString.toString 432001 ++ ", end_slot="
            ++ ToString.toString stub_metadata.end_slot } :=
  run_precomputed_stale_schedule 432001 stub_metadata tableC1 (by decide)

/-- C4: in Verify mode, failure of either authoritative call (`get_slot`
or `get_slot_leaders`) fails the whole request with error code 500; no
precomputed-only output is returned. -/
theorem run_verify_upstream_failure (env : RpcEnv) (s : Nat) (meta : EpochMetadata)
    (table : List (Nat × Pubkey)) :
    (∀ e, env.get_slot = Except.error e →
      run_verify env s meta table =
        Except.error { code := 500, message := "RPC get_slot failed: " ++ e })
    ∧ (∀ r e, env.get_slot = Except.ok r → env.get_slot_leaders r 1 = Except.error e →
      run_verify env s meta table =
        Except.error { code := 500, message := "RPC get_slot_leaders failed: " ++ e }) := by
  constructor
  · intro e he
    simp [run_verify, he]
  · intro r e hr hl
    simp [run_verify, hr, hl]

/-- Witness for C4: a failing `get_slot` and a failing
`get_slot_leaders`, each producing the 500 error. -/
theorem run_verify_upstream_failure_witness :
    run_verify envFail 0 stub_metadata [] =
      Except.error { code := 500, message := "RPC get_slot failed: " ++ "boom" }
    ∧ run_verify envFail2 0 stub_metadata [] =
      Except.error { code := 500, message := "RPC get_slot_leaders failed: " ++ "down" } :=
  ⟨(run_verify_upstream_failure envFail 0 stub_metadata []).1 "boom" rfl,
   (run_verify_upstream_failure envFail2 0 stub_metadata []).2 7 "down" rfl rfl⟩

/-- C5: with the stub metadata (start_time 0, slot duration 400 ms, slots
0 to 432000), the current slot at wall clock 40000 ms is 100 and the
offset of slot 100 is 100; in general the offset of the start slot is 0
and the offset of start_slot + k is k for every k within the epoch. -/
theorem epoch_clock_slot_arithmetic (meta : EpochMetadata) (k : Nat)
    (hk : k ≤ meta.end_slot - meta.start_slot) :
    current_slot stub_metadata 40000 = 100
    ∧ slot_offset stub_metadata 100 = 100
    ∧ slot_offset meta meta.start_slot = 0
    ∧ slot_offset meta (meta.start_slot + k) = k := by
  refine ⟨by decide, by decide, ?_, ?_⟩
  · simp [slot_offset]
  · simp [slot_offset]

/-- Witness for C5 at the stub metadata and k = 7. -/
theorem epoch_clock_slot_arithmetic_witness :
    current_slot stub_metadata 40000 = 100
    ∧ slot_offset stub_metadata 100 = 100
    ∧ slot_offset stub_metadata stub_metadata.start_slot = 0
    ∧ slot_offset stub_metadata (stub_metadata.start_slot + 7) = 7 :=
  epoch_clock_slot_arithmetic stub_metadata 7 (by decide)

/-- C7: an identity absent from the geo table resolves to the catalog's
default region (Frankfurt), and the geo label is exactly the label of the
resolved region. -/
theorem get_region_default_on_miss (pk : Pubkey)
    (h : ∀ entry ∈ VALIDATOR_TO_REGION, entry.1 ≠ pk) :
    get_region pk = Region.DEFAULT ∧ get_geo_label pk = (get_region pk).geo_label :=
  ⟨rfl, rfl⟩

/-- Witness for C7 at the all-zero pubkey, absent from the (empty) geo
table. -/
theorem get_region_default_on_miss_witness :
    get_region zeroPk = Region.DEFAULT ∧ get_geo_label zeroPk = (get_region zeroPk).geo_label :=
  get_region_default_on_miss zeroPk (by simp [VALIDATOR_TO_REGION])

/-- C8: region decoding from a byte code is total: 0, 1, 2, 3 map to
Frankfurt, Dubai, NewYork, Tokyo, and every other u8 value (4 to 255) maps
to the default region. -/
theorem region_from_code_total (v : Nat) (hv : v < 256) :
    Region.fromCode 0 = Region.Frankfurt
    ∧ Region.fromCode 1 = Region.Dubai
    ∧ Region.fromCode 2 = Region.NewYork
    ∧ Region.fromCode 3 = Region.Tokyo
    ∧ (4 ≤ v → Region.fromCode v = Region.DEFAULT) := by
  refine ⟨rfl, rfl, rfl, rfl, ?_⟩
  intro h4
  obtain ⟨w, rfl⟩ : ∃ w, v = w + 4 := ⟨v - 4, by omega⟩
  rfl

/-- Witness for C8 at code 99. -/
theorem region_from_code_total_witness :
    Region.fromCode 0 = Region.Frankfurt
    ∧ Region.fromCode 1 = Region.Dubai
    ∧ Region.fromCode 2 = Region.NewYork
    ∧ Region.fromCode 3 = Region.Tokyo
    ∧ (4 ≤ 99 → Region.fromCode 99 = Region.DEFAULT) :=
  region_from_code_total 99 (by decide)

/-- C9: slot-to-leader table construction keeps exactly the entries whose
identity is 32 bytes, counts every malformed entry in the skipped-entries
diagnostic, and never fails: every input list, including one whose entries
are all malformed, yields a result, and the kept and skipped counts
partition the input. -/
theorem phf_build_drops_only_malformed (entries : List (Nat × Pubkey)) :
    (generate_slot_to_validator_phf entries).entries
        = entries.filter (fun e => e.2.length == 32)
    ∧ (generate_slot_to_validator_phf entries).valid_entries
        = (entries.filter (fun e => e.2.length == 32)).length
    ∧ (generate_slot_to_validator_phf entries).valid_entries
        + (generate_slot_to_validator_phf entries).skipped_entries = entries.length := by
  induction entries with
  | nil => simp [generate_slot_to_validator_phf]
  | cons e rest ih =>
    by_cases h : e.2.length = 32 <;>
      simp [generate_slot_to_validator_phf, h, ih.1, ih.2.1] <;>
      omega

/-- C10: in Verify mode, a successful but empty authoritative leaders
list still yields success: the leader is the literal "unknown", the region
is resolved from the all-zero identity, and `leaders_match` is the
equality of the precomputed leader's hex encoding with none. -/
theorem run_verify_empty_leaders (env : RpcEnv) (s : Nat) (meta : EpochMetadata)
    (table : List (Nat × Pubkey)) (r : Nat)
    (h1 : env.get_slot = Except.ok r) (h2 : env.get_slot_leaders r 1 = Except.ok []) :
    run_verify env s meta table = Except.ok
      { slot := r
        leader := "unknown"
        leader_geo := (get_region (List.replicate 32 0)).geo_label
        closest_region := (get_region (List.replicate 32 0)).toString
        debug := some
          { precomputed_slot := s
            rpc_slot := r
            slots_match := s == r
            precomputed_leader := (get_leader meta table s).map hexEncode
            rpc_leader := none
            leaders_match := ((get_leader meta table s).map hexEncode) == none } } := by
  simp [run_verify, h1, h2]

/-- Witness for C10 under `envEmpty` (slot 9, empty leaders list) with the
stub metadata and an empty schedule table. -/
theorem run_verify_empty_leaders_witness :
    run_verify envEmpty 9 stub_metadata [] = Except.ok
      { slot := 9
        leader := "unknown"
        leader_geo := (get_region (List.replicate 32 0)).geo_label
        closest_region := (get_region (List.replicate 32 0)).toString
        debug := some
          { precomputed_slot := 9
            rpc_slot := 9
            slots_match := (9 == 9)
            precomputed_leader := (get_leader stub_metadata [] 9).map hexEncode
            rpc_leader := none
            leaders_match := ((get_leader stub_metadata [] 9).map hexEncode) == none } } :=
  run_verify_empty_leaders envEmpty 9 stub_metadata [] 9 rfl rfl

/-- C1: on the shipped code the claim fails. Both sides resolve the same
32 raw bytes (the all-zero pubkey) for slot 5, yet `leaders_match` is
false, because `run_verify` compares the precomputed leader's hex encoding
with the authoritative pubkey's base58 display string; the two encodings of
the same bytes differ, so the byte-level comparison the claim requires does
not happen. -/
theorem run_verify_leaders_match_is_string_compare :
    get_leader stub_metadata tableC1 5 = some zeroPk
    ∧ envC1.get_slot = Except.ok 5
    ∧ envC1.get_slot_leaders 5 1 = Except.ok [zeroPk]
    ∧ hexEncode zeroPk ≠ pubkeyToString zeroPk
    ∧ ((run_verify envC1 5 stub_metadata tableC1).toOption.bind
        (fun o => o.debug.map (fun d => d.leaders_match))) = some false := by
  refine ⟨by decide, rfl, rfl, by decide, by decide⟩

/-- C6: every successful result carries a debug block exactly when the
request mode is Verify, and in Verify mode the primary output fields come
from the authoritative source: the output slot is the `get_slot` result
and the output leader is the rendering of the `get_slot_leaders` head (or
the literal "unknown"). -/
theorem run_debug_present_iff_verify (mode : Mode) (env : RpcEnv) (s : Nat)
    (meta : EpochMetadata) (table : List (Nat × Pubkey)) (o : Output)
    (ho : run mode env s meta table = Except.ok o) :
    (o.debug.isSome = true ↔ mode = Mode.Verify)
    ∧ (mode = Mode.Verify →
        env.get_slot = Except.ok o.slot
        ∧ ∃ ls, env.get_slot_leaders o.slot 1 = Except.ok ls
            ∧ o.leader = (ls.head?.map pubkeyToString).getD "unknown") := by
  cases mode with
  | Precomputed =>
    have hd : o.debug = none := by
      simp only [run, run_precomputed] at ho
      split at ho
      · cases ho
      · split at ho
        · cases ho
        · cases ho
          rfl
    simp [hd]
  | Rpc =>
    have hd : o.debug = none := by
      simp only [run, run_rpc] at ho
      split at ho
      · cases ho
      · split at ho
        · cases ho
        · split at ho
          · cases ho
          · cases ho
            rfl
    simp [hd]
  | Verify =>
    simp only [run, run_verify] at ho
    split at ho
    · cases ho
    · split at ho
      · cases ho
      · cases ho
        refine ⟨by simp, fun _ => ⟨by assumption, ?_⟩⟩
        exact ⟨_, by assumption, by cases h : List.head? _ <;> simp [h]⟩

/-- Witness for C6 in Verify mode under `envEmpty` with the stub
metadata and an empty schedule table, whose successful output is
`outEmpty`. -/
theorem run_debug_present_iff_verify_witness :
    (outEmpty.debug.isSome = true ↔ Mode.Verify = Mode.Verify)
    ∧ (Mode.Verify = Mode.Verify →
        envEmpty.get_slot = Except.ok outEmpty.slot
        ∧ ∃ ls, envEmpty.get_slot_leaders outEmpty.slot 1 = Except.ok ls
            ∧ outEmpty.leader = (ls.head?.map pubkeyToString).getD "unknown") :=
  run_debug_present_iff_verify Mode.Verify envEmpty 9 stub_metadata [] outEmpty rfl

end LeaderRouting
